import Mathlib

/-!
Verification of the pesde package-manager core (jiwonz/pesde-schema).

The definitions below are a shallow embedding of the Rust sources:
  - `src/cli/commands/publish.rs` (publish command),
  - `src/source/pesde/mod.rs` (registry source: resolve / download),
  - `src/download.rs` (parallel downloader's refresh deduplication),
  - `src/source/wally/compat_util.rs` (compat target synthesis).

Types that the sources use but whose defining modules are not part of this
repository snapshot (`manifest/target.rs`, `source/workspace/specifier.rs`,
`source/fs.rs`, the lockfile module, the semver library) are modelled from
the specification, each with a doc comment saying so.
-/

namespace Pesde

/-- Semantic version, modelled from the spec's `Version` (the semver crate is
external): a major/minor/patch triple. -/
structure SemVer where
  major : Nat
  minor : Nat
  patch : Nat
deriving DecidableEq, Repr

/-- Canonical display of a semantic version, as the semver crate prints it. -/
def SemVer.display (v : SemVer) : String :=
  toString v.major ++ "." ++ toString v.minor ++ "." ++ toString v.patch

/-- Modelled from the spec: the closed enum of target kinds
(the game-engine player/server kinds, the script runtime, and plain Luau). -/
inductive TargetKind where
  | roblox
  | robloxServer
  | lune
  | luau
deriving DecidableEq, Repr

/-- Whether a target kind is one of the two Roblox kinds. -/
def TargetKind.isRoblox : TargetKind → Bool
  | .roblox => true
  | .robloxServer => true
  | _ => false

/-- Modelled from the spec: the compatibility relation between target kinds.
Equal kinds are compatible, and Roblox kinds may not depend on non-Roblox
kinds (the spec specifies no further cross-kind compatibility, so other
unequal pairs are modelled as incompatible). -/
def TargetKind.is_compatible_with (consumer dep : TargetKind) : Bool :=
  consumer = dep || (consumer.isRoblox && dep.isRoblox)

/-- Modelled from the spec: a `Target` is a `TargetKind`-tagged union with an
optional library entry path, an optional binary entry path, and for Roblox
kinds a set of build-file names (here a list). -/
inductive Target where
  | roblox (lib : Option String) (build_files : List String)
  | robloxServer (lib : Option String) (build_files : List String)
  | lune (lib : Option String) (bin : Option String)
  | luau (lib : Option String) (bin : Option String)
deriving DecidableEq, Repr

/-- The kind of a target. -/
def Target.kind : Target → TargetKind
  | .roblox _ _ => .roblox
  | .robloxServer _ _ => .robloxServer
  | .lune _ _ => .lune
  | .luau _ _ => .luau

/-- The library entry path of a target, when any. -/
def Target.lib_path : Target → Option String
  | .roblox l _ => l
  | .robloxServer l _ => l
  | .lune l _ => l
  | .luau l _ => l

/-- The binary entry path of a target: only non-Roblox kinds carry one. -/
def Target.bin_path : Target → Option String
  | .roblox _ _ => none
  | .robloxServer _ _ => none
  | .lune _ b => b
  | .luau _ b => b

/-- The build files of a target: `some` exactly for the Roblox kinds. -/
def Target.build_files : Target → Option (List String)
  | .roblox _ f => some f
  | .robloxServer _ f => some f
  | _ => none

/-- A two-part package identifier `scope/name`. -/
structure PackageName where
  scope : String
  name : String
deriving DecidableEq, Repr

/-- Modelled from the spec: the escaped form of a package name, joining the
two parts with `+` (the spec's scenario shows `scope+util`). -/
def PackageName.escaped (n : PackageName) : String :=
  n.scope ++ "+" ++ n.name

/-- The names of packages from the various sources; the downloader in this
snapshot only matches the pesde variant. -/
inductive PackageNames where
  | pesde (name : PackageName)
deriving DecidableEq, Repr

/-- A version id: a version paired with a target kind. -/
structure VersionId where
  version : SemVer
  target : TargetKind
deriving DecidableEq, Repr

/-- The kind of a dependency edge. -/
inductive DependencyType where
  | standard
  | dev
  | peer
deriving DecidableEq, Repr

end Pesde

namespace Pesde

/-! ## Dependency specifiers and the manifest -/

/-- Modelled from the spec: a workspace version constraint is a wildcard or
one of the comparator prefixes caret, tilde, equals. -/
inductive VersionType where
  | wildcard
  | caret
  | tilde
  | exact
deriving DecidableEq, Repr

/-- Display form of a workspace version type. -/
def VersionType.display : VersionType → String
  | .wildcard => "*"
  | .caret => "^"
  | .tilde => "~"
  | .exact => "="

/-- Modelled from the spec: a workspace version is either a bare version
type or a full version requirement (kept in its textual form, since the
semver crate is external). -/
inductive VersionTypeOrReq where
  | versionType (vt : VersionType)
  | req (r : String)
deriving DecidableEq, Repr

/-- Display form of a workspace version, as the Rust `format!` sees it. -/
def VersionTypeOrReq.display : VersionTypeOrReq → String
  | .versionType vt => vt.display
  | .req r => r

/-- The textual form of the semver crate's `VersionReq`; `STAR` is `*`.
The crate itself is external, so requirements are carried as text. -/
def versionReqStar : String := "*"

/-- Models the semver crate's `VersionReq::parse`: on the canonical strings
the publish rewrite produces (a comparator prefix followed by a canonical
version display) parsing succeeds and is the identity on the text. -/
def versionReqParse (s : String) : Except String String := .ok s

/-- The specifier for a pesde registry dependency. -/
structure PesdeDependencySpecifier where
  name : PackageName
  version : String
  index : Option String
  target : Option TargetKind
deriving DecidableEq, Repr

/-- Modelled from the spec: the specifier for a compatibility-registry
(wally) dependency. -/
structure WallyDependencySpecifier where
  name : PackageName
  version : String
  index : Option String
deriving DecidableEq, Repr

/-- The specifier for a Git dependency (src/source/git/specifier.rs). -/
structure GitDependencySpecifier where
  repo : String
  rev : String
  path : Option String
deriving DecidableEq, Repr

/-- Modelled from the spec: the specifier for a workspace dependency. -/
structure WorkspaceDependencySpecifier where
  name : PackageName
  version : VersionTypeOrReq
  target : Option TargetKind
deriving DecidableEq, Repr

/-- All dependency specifiers. -/
inductive DependencySpecifiers where
  | pesde (s : PesdeDependencySpecifier)
  | wally (s : WallyDependencySpecifier)
  | git (s : GitDependencySpecifier)
  | workspace (s : WorkspaceDependencySpecifier)
deriving DecidableEq, Repr

/-- Modelled from the spec: the project manifest, restricted to the fields
the verified code paths read. `privateFlag` is the manifest's `private`
field (renamed: `private` is reserved in Lean); index maps are association
lists from alias to URL. -/
structure Manifest where
  name : PackageName
  version : SemVer
  privateFlag : Bool
  target : Target
  indices : List (String × String)
  wally_indices : List (String × String)
  dependencies : List (String × DependencySpecifiers)
  dev_dependencies : List (String × DependencySpecifiers)
  peer_dependencies : List (String × DependencySpecifiers)
deriving DecidableEq, Repr

/-- The name of the default index. -/
def DEFAULT_INDEX_NAME : String := "default"

/-- The pesde package source: a handle on an index repository URL
(src/source/pesde/mod.rs, `PesdePackageSource`). -/
structure PesdePackageSource where
  repo_url : String
deriving DecidableEq, Repr

/-- The entry in a package's index file (src/source/pesde/mod.rs,
`IndexFileEntry`): target, publication time, description, license, and the
resolved dependencies table. -/
structure IndexFileEntry where
  target : Target
  published_at : String
  description : Option String
  license : Option String
  dependencies : List (String × DependencySpecifiers × DependencyType)
deriving DecidableEq, Repr

/-- The index file for a package: a map from version id to entry
(src/source/pesde/mod.rs, `IndexFile`), as an association list following
the `BTreeMap` iteration order. -/
abbrev IndexFile := List (VersionId × IndexFileEntry)

/-- The pesde package reference (src/source/pesde): name, version, the
source's index URL, the entry's dependencies, and the entry's target. -/
structure PesdePackageRef where
  name : PackageName
  version : SemVer
  index_url : String
  dependencies : List (String × DependencySpecifiers × DependencyType)
  target : Target
deriving DecidableEq, Repr

/-- The package references the downloader matches on; this snapshot's
`download.rs` handles only the pesde variant. -/
inductive PackageRefs where
  | pesde (r : PesdePackageRef)
deriving DecidableEq, Repr

/-- The package sources the downloader builds from references. -/
inductive PackageSources where
  | pesde (s : PesdePackageSource)
deriving DecidableEq, Repr

/-! ## Lockfile graph (modelled from the spec's DependencyGraph) -/

/-- Modelled from the spec: a node of the dependency graph, with the alias
and specifier of the root's reference when the package is a direct
dependency, the dependency kind, and the node's outgoing edges
(dependency name, version id, local alias). -/
structure DependencyGraphNode where
  direct : Option (String × DependencySpecifiers)
  pkg_ref : PackageRefs
  ty : DependencyType
  dependencies : List (PackageNames × VersionId × String)
deriving DecidableEq, Repr

/-- Modelled from the spec: a downloaded graph node also carries the
realized target. -/
structure DownloadedDependencyGraphNode where
  node : DependencyGraphNode
  target : Target
deriving DecidableEq, Repr

/-- Modelled from the spec: the lockfile's graph, a map from package name
to a map from version id to downloaded node (as association lists). -/
structure Lockfile where
  graph : List (PackageNames × List (VersionId × DownloadedDependencyGraphNode))
deriving DecidableEq, Repr

/-- All `(VersionId, node)` entries of the lockfile graph, flattened as the
Rust `lockfile.graph.values().flatten()` does. -/
def Lockfile.allNodes (lf : Lockfile) : List (VersionId × DownloadedDependencyGraphNode) :=
  (lf.graph.map Prod.snd).flatten

/-- Looks up the node for a given package name and version id. -/
def Lockfile.lookupNode (lf : Lockfile) (n : PackageNames) (v : VersionId) :
    Option DownloadedDependencyGraphNode :=
  (lf.graph.lookup n).bind fun versions => versions.lookup v

/-! ## Downloader: refresh deduplication (src/download.rs lines 34-44) -/

/-- The full dependency graph fed to the downloader: package name to
version id to node, as association lists (modelled from the spec's
DependencyGraph shape; the node type is this snapshot's). -/
abbrev DependencyGraph := List (PackageNames × List (VersionId × DependencyGraphNode))

/-- The source the downloader builds from a node's package reference
(`download.rs`: `PackageSources::Pesde(PesdePackageSource::new(...))`). -/
def sourceOfRef : PackageRefs → PackageSources
  | .pesde r => .pesde ⟨r.index_url⟩

/-- The sequence of package references `download_graph` iterates: every
node of every version of every package, in graph order. -/
def graphRefs (graph : DependencyGraph) : List PackageRefs :=
  ((graph.map Prod.snd).flatten).map fun p => p.2.pkg_ref

/-- Embedding of the refresh-guard loop of `download_graph`: for each node,
build the source; if inserting it into `refreshed_sources` succeeds (it was
not yet present), call `refresh`, aborting the loop when the call fails.
Returns the final set, the list of refresh calls made in order, and whether
the loop aborted on a refresh failure. `refreshOk` models the outcome of
`source.refresh(self)`. -/
def downloadGraphRefreshGo (refreshOk : PackageSources → Bool) :
    List PackageRefs → List PackageSources → List PackageSources →
    List PackageSources × List PackageSources × Bool
  | [], set, calls => (set, calls, false)
  | r :: rest, set, calls =>
    let s := sourceOfRef r
    if s ∈ set then downloadGraphRefreshGo refreshOk rest set calls
    else if refreshOk s then
      downloadGraphRefreshGo refreshOk rest (s :: set) (calls ++ [s])
    else (s :: set, calls ++ [s], true)

/-- The refresh behaviour of one `download_graph` run over a graph,
starting from a (possibly shared) `refreshed_sources` set. -/
def downloadGraphRefresh (refreshOk : PackageSources → Bool)
    (graph : DependencyGraph) (refreshedSources : List PackageSources) :
    List PackageSources × List PackageSources × Bool :=
  downloadGraphRefreshGo refreshOk (graphRefs graph) refreshedSources []

/-! ## Registry resolve (src/source/pesde/mod.rs lines 332-381) -/

/-- Errors of `PesdePackageSource::resolve`; reading the `<scope>/<name>`
file yields `none` for an unknown package, reported as `NotFound` (I/O and
parse failures are collapsed into the file input here). -/
inductive ResolveError where
  | notFound (name : String)
deriving DecidableEq, Repr

/-- Embedding of `PesdePackageSource::resolve`: the index file's entries
are filtered to those whose version satisfies the requirement and whose
target equals the specifier's target when given, or else is compatible with
the consuming project's target kind; each kept entry becomes a package ref
carrying the entry's dependencies and target and the source's index URL.
`vmatches` models the external semver crate's `VersionReq::matches` applied
to the specifier's textual requirement. -/
def PesdePackageSource.resolve (src : PesdePackageSource)
    (vmatches : String → SemVer → Bool) (specifier : PesdeDependencySpecifier)
    (projectTarget : TargetKind) (file : Option IndexFile) :
    Except ResolveError (PackageNames × List (VersionId × PesdePackageRef)) :=
  match file with
  | none => .error (.notFound (specifier.name.scope ++ "/" ++ specifier.name.name))
  | some entries =>
    .ok (.pesde specifier.name,
      (entries.filter fun p =>
        vmatches specifier.version p.1.version &&
          (match specifier.target with
           | some t => t == p.1.target
           | none => projectTarget.is_compatible_with p.1.target)).map
        fun p => (p.1,
          { name := specifier.name
            version := p.1.version
            index_url := src.repo_url
            dependencies := p.2.dependencies
            target := p.2.target }))

/-- A concrete two-entry index file (versions 1.2.0 and 1.3.1 of a Lune
package), following the spec's first scenario. -/
def cexIndexFile : IndexFile :=
  [(⟨⟨1, 2, 0⟩, .lune⟩,
    { target := .lune (some "init.luau") none, published_at := ""
      description := none, license := none, dependencies := [] }),
   (⟨⟨1, 3, 1⟩, .lune⟩,
    { target := .lune (some "init.luau") none, published_at := ""
      description := none, license := none, dependencies := [] })]

/-! ## Registry download (src/source/pesde/mod.rs lines 383-459) -/

/-- An entry of a package's file tree: a directory, or a file recorded by
the hash of its contents (modelled from the spec's PackageFS; the defining
`source/fs.rs` is absent from this snapshot). -/
inductive FSEntry where
  | directory
  | file (hash : Nat)
deriving DecidableEq, Repr

/-- A package's file tree recorded against the CAS, as a path-keyed map
(association list following the `BTreeMap`). -/
structure PackageFS where
  entries : List (String × FSEntry)
deriving DecidableEq, Repr

/-- Map insertion with `BTreeMap` semantics: replace the value of an
existing key, otherwise add the binding. -/
def insertBTree (k : String) (v : FSEntry) :
    List (String × FSEntry) → List (String × FSEntry)
  | [] => [(k, v)]
  | (k', v') :: rest =>
    if k = k' then (k, v) :: rest else (k', v') :: insertBTree k v rest

/-- Whether a byte is a UTF-8 continuation byte. -/
def isCont (b : Nat) : Bool := 0x80 ≤ b && b ≤ 0xBF

/-- UTF-8 validity of a byte sequence per the standard (what Rust's
`read_to_string` checks): ASCII, two- to four-byte sequences with the
standard ranges, no overlongs, no surrogates, nothing above U+10FFFF. -/
def validUtf8 : List Nat → Bool
  | [] => true
  | b :: rest =>
    if b ≤ 0x7F then validUtf8 rest
    else if 0xC2 ≤ b && b ≤ 0xDF then
      match rest with
      | c1 :: r => isCont c1 && validUtf8 r
      | _ => false
    else if b = 0xE0 then
      match rest with
      | c1 :: c2 :: r => (0xA0 ≤ c1 && c1 ≤ 0xBF) && isCont c2 && validUtf8 r
      | _ => false
    else if 0xE1 ≤ b && b ≤ 0xEC then
      match rest with
      | c1 :: c2 :: r => isCont c1 && isCont c2 && validUtf8 r
      | _ => false
    else if b = 0xED then
      match rest with
      | c1 :: c2 :: r => (0x80 ≤ c1 && c1 ≤ 0x9F) && isCont c2 && validUtf8 r
      | _ => false
    else if 0xEE ≤ b && b ≤ 0xEF then
      match rest with
      | c1 :: c2 :: r => isCont c1 && isCont c2 && validUtf8 r
      | _ => false
    else if b = 0xF0 then
      match rest with
      | c1 :: c2 :: c3 :: r =>
        (0x90 ≤ c1 && c1 ≤ 0xBF) && isCont c2 && isCont c3 && validUtf8 r
      | _ => false
    else if 0xF1 ≤ b && b ≤ 0xF3 then
      match rest with
      | c1 :: c2 :: c3 :: r => isCont c1 && isCont c2 && isCont c3 && validUtf8 r
      | _ => false
    else if b = 0xF4 then
      match rest with
      | c1 :: c2 :: c3 :: r =>
        (0x80 ≤ c1 && c1 ≤ 0x8F) && isCont c2 && isCont c3 && validUtf8 r
      | _ => false
    else false

/-- Modelled from the spec: the CAS digest over raw bytes. The concrete
collision-resistant function is external; the claims depend only on it
being a fixed function, so a simple executable stand-in is used. -/
def hashBytes (bytes : List Nat) : Nat :=
  bytes.foldl (fun acc b => acc * 31 + b + 1) 7

/-- Modelled from the spec: `store_in_cas` writes the bytes under their
hash, idempotent on content; the store is an association list from hash to
bytes. -/
def store_in_cas (cas : List (Nat × List Nat)) (bytes : List Nat) :
    Nat × List (Nat × List Nat) :=
  let h := hashBytes bytes
  match cas.lookup h with
  | some _ => (h, cas)
  | none => (h, (h, bytes) :: cas)

/-- One entry of the downloaded tar archive: its path, whether the header
marks a directory, and the raw bytes. -/
structure TarEntry where
  path : String
  isDir : Bool
  contents : List Nat
deriving DecidableEq, Repr

/-- Errors of `PesdePackageSource::download` (reduced to those reachable in
the model). -/
inductive DownloadError where
  /-- HTTP failure while fetching the archive. -/
  | download
  /-- I/O error while unpacking (including non-UTF-8 file contents, which
  `read_to_string` reports as an `InvalidData` I/O error). -/
  | unpack
  /-- The cached index file exists but does not parse. -/
  | deserializeIndex
deriving DecidableEq, Repr

/-- The content of an on-disk cached index file: either a document that
parses back to a `PackageFS` (the TOML round-trip is the external library's
guarantee) or unparseable bytes. -/
inductive CacheValue where
  | parseable (fs : PackageFS)
  | garbage
deriving DecidableEq, Repr

/-- Display form of a target kind, as the Rust `Display` prints it. -/
def TargetKind.display : TargetKind → String
  | .roblox => "roblox"
  | .robloxServer => "roblox_server"
  | .lune => "lune"
  | .luau => "luau"

/-- Display form of a target: its kind. -/
def Target.display (t : Target) : String := t.kind.display

/-- The cache key of a package reference: the path components
`<escaped name>/<version>/<target>` under `<cas>/index`. -/
def cacheKey (r : PesdePackageRef) : String × String × String :=
  (r.name.escaped, r.version.display, r.target.display)

/-- The state `download` reads and writes: the cached index files keyed by
`cacheKey`, and the CAS. -/
structure DownloadState where
  cache : List ((String × String × String) × CacheValue)
  cas : List (Nat × List Nat)
deriving DecidableEq, Repr

/-- Embedding of the tar-walking loop of `download`: directory entries are
recorded verbatim; file entries are read as UTF-8 strings (failing with the
unpack I/O error on invalid UTF-8) and stored in the CAS. -/
def unpackEntries : List TarEntry → List (String × FSEntry) → List (Nat × List Nat) →
    Except DownloadError (List (String × FSEntry) × List (Nat × List Nat))
  | [], acc, cas => .ok (acc, cas)
  | e :: rest, acc, cas =>
    if e.isDir then unpackEntries rest (insertBTree e.path .directory acc) cas
    else if validUtf8 e.contents then
      let stored := store_in_cas cas e.contents
      unpackEntries rest (insertBTree e.path (.file stored.1) acc) stored.2
    else .error .unpack

/-- Embedding of `PesdePackageSource::download`: if the cache file for
`(escaped name, version, target)` exists and parses, return it with the
ref's target and no network use; otherwise fetch the archive (`fetch`
models the HTTP GET), unpack it into the CAS, write the cache file, and
return the tree with the ref's target. The returned `Bool` records whether
the network was used. -/
def PesdePackageSource.download (pkg_ref : PesdePackageRef) (st : DownloadState)
    (fetch : Except Unit (List TarEntry)) :
    Except DownloadError (PackageFS × Target × DownloadState × Bool) :=
  match st.cache.lookup (cacheKey pkg_ref) with
  | some (.parseable fs) => .ok (fs, pkg_ref.target, st, false)
  | some .garbage => .error .deserializeIndex
  | none =>
    match fetch with
    | .error _ => .error .download
    | .ok entries =>
      match unpackEntries entries [] st.cas with
      | .error e => .error e
      | .ok res =>
        let fs := PackageFS.mk res.1
        .ok (fs, pkg_ref.target,
          { cache := (cacheKey pkg_ref, .parseable fs) :: st.cache, cas := res.2 },
          true)

/-- A concrete package reference for the download fixtures. -/
def cexDownloadRef : PesdePackageRef :=
  { name := ⟨"scope", "util"⟩, version := ⟨1, 3, 1⟩
    index_url := "https://example.com/index", dependencies := []
    target := .lune (some "init.luau") none }

/-- A one-file archive with ASCII (hence valid UTF-8) contents. -/
def cexTarEntries : List TarEntry := [⟨"init.luau", false, [104, 105]⟩]

/-- The empty starting state: no cached index files, empty CAS. -/
def cexDownloadState : DownloadState := { cache := [], cas := [] }

/-- The tree the fixture archive unpacks to. -/
def cexDownloadFS : PackageFS :=
  ⟨[("init.luau", .file (hashBytes [104, 105]))]⟩

/-- The state after the first download: the cache file written, the file
contents stored in the CAS. -/
def cexDownloadStateAfter : DownloadState :=
  { cache := [(cacheKey cexDownloadRef, .parseable cexDownloadFS)]
    cas := [(hashBytes [104, 105], [104, 105])] }

/-! ## Compat target synthesis (src/source/wally/compat_util.rs) -/

/-- The sentinel path recorded when no library entry file is found
(`LINK_LIB_NO_FILE_FOUND` in src/lib.rs). -/
def LINK_LIB_NO_FILE_FOUND : String := "____pesde_no_export_file_found"

/-- The name of the sourcemap generator script role in the manifest's
scripts map. -/
def SCRIPT_SOURCEMAP_GENERATOR : String := "sourcemap_generator"

/-- The deserialized sourcemap node: the reported file paths. -/
structure SourcemapNode where
  file_paths : List String
deriving DecidableEq, Repr

/-- Modelled from the spec: the `realm` field of the older (wally)
manifest, `shared` vs `server`. -/
inductive Realm where
  | shared
  | server
deriving DecidableEq, Repr

/-- Splits a character list on a separator, keeping empty segments, as the
path libraries split on `/` and `.`. -/
def splitOnChar (c : Char) : List Char → List (List Char)
  | [] => [[]]
  | x :: xs =>
    let r := splitOnChar c xs
    if x = c then [] :: r else (x :: r.headD []) :: r.tail

/-- The extension of a path's file name, with the standard library's
semantics (`relative-path` mirrors `std::path`): the part after the last
dot of the last component, none when there is no dot or the whole file name
starts with the only dot. -/
def fileExt (path : String) : Option (List Char) :=
  let fname := (splitOnChar '/' path.toList).getLastD []
  match splitOnChar '.' fname with
  | [] => none
  | [_] => none
  | first :: rest =>
    if first.isEmpty && rest.length == 1 then none else some (rest.getLastD [])

/-- Whether a path has a `.lua` or `.luau` extension. -/
def hasLuaExt (p : String) : Bool :=
  match fileExt p with
  | some e => e == "lua".toList || e == "luau".toList
  | none => false

/-- The error of `find_lib_path` / `get_target` reachable in the model:
the sourcemap result fails to deserialize. -/
inductive FindLibPathError where
  | serde
deriving DecidableEq, Repr

/-- Embedding of `find_lib_path`: when no sourcemap generator script is
configured, or the script produced no (or empty) output, return no path;
otherwise parse the output (`parseSourcemap` models serde_json) and return
the first reported path with a `.lua`/`.luau` extension. `execResult`
models the script's stdout. -/
def find_lib_path (scripts : List (String × String)) (execResult : Option String)
    (parseSourcemap : String → Option SourcemapNode) :
    Except FindLibPathError (Option String) :=
  match scripts.lookup SCRIPT_SOURCEMAP_GENERATOR with
  | none => .ok none
  | some _ =>
    match execResult with
    | some result =>
      if result.isEmpty then .ok none
      else
        match parseSourcemap result with
        | some node => .ok (node.file_paths.find? hasLuaExt)
        | none => .error .serde
    | none => .ok none

/-- Embedding of `get_target`: the library path found by `find_lib_path`
(or the no-file-found sentinel), empty build files, and the Roblox kind for
a shared realm or RobloxServer otherwise. -/
def get_target (scripts : List (String × String)) (execResult : Option String)
    (parseSourcemap : String → Option SourcemapNode) (realm : Realm) :
    Except FindLibPathError Target :=
  match find_lib_path scripts execResult parseSourcemap with
  | .error e => .error e
  | .ok libOpt =>
    let lib := some (libOpt.getD LINK_LIB_NO_FILE_FOUND)
    let build_files : List String := []
    .ok (match realm with
         | .shared => Target.roblox lib build_files
         | _ => Target.robloxServer lib build_files)

/-! ## Publish: early validation (publish.rs lines 41-90) -/

/-- The failures of the publish command's early validation. -/
inductive PublishEarlyError where
  /-- Neither a lib path nor a bin path is set: `no exports found in target`. -/
  | noExports
  /-- Roblox target with empty build files: `no build files found in target`. -/
  | noBuildFiles
  /-- No up-to-date lockfile: `outdated lockfile, please run the install command first`. -/
  | outdatedLockfile
  /-- `roblox packages may not depend on non-roblox packages`. -/
  | robloxNonRoblox
deriving DecidableEq, Repr

/-- What the publish command's early phase did before handing over to the
archive construction. All archive building and all network traffic in
`run_impl` happen only after this phase, so `reachedArchive = false` means
no archive was built and no request was sent. -/
structure PublishHeadResult where
  printedPrivateNotice : Bool
  reachedArchive : Bool
deriving DecidableEq, Repr

/-- Embedding of the Roblox dependency check inside `run_impl`: among the
lockfile graph's nodes, keep those with a `direct` marker and test whether
any has no build files (a non-Roblox target) and is not a dev dependency. -/
def robloxDependencyCheckFails (lf : Lockfile) : Bool :=
  lf.allNodes.any fun p =>
    p.2.node.direct.isSome && p.2.target.build_files.isNone && !(p.2.node.ty == .dev)

/-- Whether a target has a non-empty set of build files, as
`manifest.target.build_files().is_some_and(|f| !f.is_empty())`. -/
def buildFilesNonEmpty (t : Target) : Bool :=
  match t.build_files with
  | some f => !f.isEmpty
  | none => false

/-- Embedding of the head of `PublishCommand::run_impl` (lines 41-90): the
private short-circuit, the exports check, and for Roblox targets the
build-files check plus the lockfile-backed Roblox dependency check.
`upToDate` models `up_to_date_lockfile` (modelled from the spec: `some`
exactly when the lockfile exists and matches the manifest digest). -/
def publishRunImplHead (m : Manifest) (upToDate : Option Lockfile) :
    Except PublishEarlyError PublishHeadResult :=
  if m.privateFlag then .ok ⟨true, false⟩
  else if m.target.lib_path.isNone && m.target.bin_path.isNone then .error .noExports
  else if m.target.kind.isRoblox then
    if !buildFilesNonEmpty m.target then .error .noBuildFiles
    else
      match upToDate with
      | some lf =>
          if robloxDependencyCheckFails lf then .error .robloxNonRoblox
          else .ok ⟨false, true⟩
      | none => .error .outdatedLockfile
  else .ok ⟨false, true⟩

/-- Formalizes the claim's phrase "transitively-reachable": a package is
reachable when it carries the `direct` marker, or when some reachable node
has an edge to it. (This follows the spec's wording, for comparison with
what the code checks.) -/
inductive ReachableFromDirect (lf : Lockfile) : PackageNames → VersionId → Prop where
  | direct (n : PackageNames) (v : VersionId) (node : DownloadedDependencyGraphNode)
      (hl : lf.lookupNode n v = some node) (hd : node.node.direct.isSome = true) :
      ReachableFromDirect lf n v
  | step (n : PackageNames) (v : VersionId) (node : DownloadedDependencyGraphNode)
      (m : PackageNames) (w : VersionId) (al : String)
      (hr : ReachableFromDirect lf n v) (hl : lf.lookupNode n v = some node)
      (he : (m, w, al) ∈ node.node.dependencies) :
      ReachableFromDirect lf m w

/-- A concrete Roblox package name used in the Roblox-gate counterexample. -/
def cexPkgA : PackageNames := .pesde ⟨"x", "a"⟩

/-- A concrete non-Roblox package name reachable only transitively. -/
def cexPkgB : PackageNames := .pesde ⟨"x", "b"⟩

/-- Version id of the direct Roblox package. -/
def cexVidA : VersionId := ⟨⟨1, 0, 0⟩, .roblox⟩

/-- Version id of the transitive Lune package. -/
def cexVidB : VersionId := ⟨⟨1, 0, 0⟩, .lune⟩

/-- The direct Roblox node: carries the `direct` marker and an edge to the
Lune package. -/
def cexNodeA : DownloadedDependencyGraphNode :=
  { node := { direct := some ("a", .pesde ⟨⟨"x", "a"⟩, "*", none, none⟩)
              pkg_ref := .pesde
                { name := ⟨"x", "a"⟩, version := ⟨1, 0, 0⟩
                  index_url := "https://example.com/index", dependencies := []
                  target := .roblox (some "init.luau") ["src"] }
              ty := .standard
              dependencies := [(cexPkgB, cexVidB, "b")] }
    target := .roblox (some "init.luau") ["src"] }

/-- The transitive node: not direct, not dev, and with a non-Roblox (Lune)
target, hence no build files. -/
def cexNodeB : DownloadedDependencyGraphNode :=
  { node := { direct := none
              pkg_ref := .pesde
                { name := ⟨"x", "b"⟩, version := ⟨1, 0, 0⟩
                  index_url := "https://example.com/index", dependencies := []
                  target := .lune (some "init.luau") none }
              ty := .standard, dependencies := [] }
    target := .lune (some "init.luau") none }

/-- A lockfile whose graph holds the direct Roblox node and, reachable
through it, a non-dev Lune node. -/
def cexLockfile : Lockfile :=
  { graph := [(cexPkgA, [(cexVidA, cexNodeA)]), (cexPkgB, [(cexVidB, cexNodeB)])] }

/-- A lockfile whose only node is a direct, non-dev dependency with a
non-Roblox (Lune) target: the Roblox gate must reject it. -/
def cexDirectLuneLockfile : Lockfile :=
  { graph := [(cexPkgA, [(cexVidA,
      { node := { direct := some ("a", .pesde ⟨⟨"x", "a"⟩, "*", none, none⟩)
                  pkg_ref := .pesde
                    { name := ⟨"x", "a"⟩, version := ⟨1, 0, 0⟩
                      index_url := "https://example.com/index", dependencies := []
                      target := .lune (some "init.luau") none }
                  ty := .standard, dependencies := [] }
        target := .lune (some "init.luau") none })])] }

/-- A non-private Roblox manifest with exports and non-empty build files. -/
def cexManifest : Manifest :=
  { name := ⟨"x", "a"⟩
    version := ⟨1, 0, 0⟩
    privateFlag := false
    target := .roblox (some "src/init.luau") ["src"]
    indices := [(DEFAULT_INDEX_NAME, "https://example.com/index")]
    wally_indices := []
    dependencies := []
    dev_dependencies := []
    peer_dependencies := [] }

/-! ## Publish: dependency specifier rewriting (publish.rs lines 283-369) -/

/-- Failures of the specifier-rewriting loop, mirroring the `context`-tagged
bail-outs of the Rust code. -/
inductive RewriteError where
  /-- A pesde specifier names an index absent from `indices`. -/
  | indexNotFound (indexName : String)
  /-- A wally specifier names an index absent from `wally_indices`. -/
  | wallyIndexNotFound (indexName : String)
  /-- Workspace resolution found no member (or its manifest was unreadable). -/
  | noWorkspaceMember
  /-- The member manifest has no default index. -/
  | missingDefaultIndex
  /-- The concatenated version requirement failed to parse. -/
  | versionParse (v : String)
deriving DecidableEq, Repr

/-- Embedding of the `match specifier` body of the rewriting loop in
`run_impl`: registry and compat specifiers get their alias replaced by the
absolute index URL; git specifiers pass through; workspace specifiers are
replaced by registry specifiers built from the resolved member's manifest.
`resolveMember` models the missing `WorkspacePackageSource::resolve`
followed by reading the member's manifest (modelled from the spec: it
returns the matching workspace member's manifest, `none` when there is no
match). -/
def rewriteSpecifier (indices wallyIndices : List (String × String))
    (resolveMember : WorkspaceDependencySpecifier → Option Manifest) :
    DependencySpecifiers → Except RewriteError DependencySpecifiers
  | .pesde s =>
      let indexName := s.index.getD DEFAULT_INDEX_NAME
      match indices.lookup indexName with
      | some url => .ok (.pesde { s with index := some url })
      | none => .error (.indexNotFound indexName)
  | .wally s =>
      let indexName := s.index.getD DEFAULT_INDEX_NAME
      match wallyIndices.lookup indexName with
      | some url => .ok (.wally { s with index := some url })
      | none => .error (.wallyIndexNotFound indexName)
  | .git s => .ok (.git s)
  | .workspace ws =>
      match resolveMember ws with
      | none => .error .noWorkspaceMember
      | some member =>
        let versionE : Except RewriteError String :=
          match ws.version with
          | .versionType .wildcard => .ok versionReqStar
          | .req r => .ok r
          | .versionType vt =>
            match versionReqParse
                (VersionTypeOrReq.display (.versionType vt) ++ member.version.display) with
            | .ok r => .ok r
            | .error _ => .error (.versionParse vt.display)
        match versionE with
        | .error e => .error e
        | .ok ver =>
          match member.indices.lookup DEFAULT_INDEX_NAME with
          | none => .error .missingDefaultIndex
          | some url =>
            .ok (.pesde { name := ws.name, version := ver, index := some url,
                          target := some (ws.target.getD member.target.kind) })

/-- Applies `rewriteSpecifier` across one dependency map, stopping at the
first failure as the Rust `?` does. -/
def rewriteDepList (indices wallyIndices : List (String × String))
    (resolveMember : WorkspaceDependencySpecifier → Option Manifest) :
    List (String × DependencySpecifiers) →
    Except RewriteError (List (String × DependencySpecifiers))
  | [] => .ok []
  | (al, spec) :: rest =>
    match rewriteSpecifier indices wallyIndices resolveMember spec with
    | .error e => .error e
    | .ok spec' =>
      match rewriteDepList indices wallyIndices resolveMember rest with
      | .error e => .error e
      | .ok rest' => .ok ((al, spec') :: rest')

/-- Embedding of the whole rewriting loop: `dependencies`,
`dev_dependencies` and `peer_dependencies` are all rewritten in place. -/
def rewriteManifestDeps (m : Manifest)
    (resolveMember : WorkspaceDependencySpecifier → Option Manifest) :
    Except RewriteError Manifest :=
  match rewriteDepList m.indices m.wally_indices resolveMember m.dependencies with
  | .error e => .error e
  | .ok deps =>
    match rewriteDepList m.indices m.wally_indices resolveMember m.dev_dependencies with
    | .error e => .error e
    | .ok devDeps =>
      match rewriteDepList m.indices m.wally_indices resolveMember m.peer_dependencies with
      | .error e => .error e
      | .ok peerDeps =>
        .ok { m with dependencies := deps, dev_dependencies := devDeps,
                     peer_dependencies := peerDeps }

/-- The registry specifier the rewrite produces for a workspace specifier
`ws` resolved to `member` whose default index URL is `url`: same name, the
version requirement as the claim describes it, the member's default index
URL, and the specifier's target or else the member's target kind. -/
def workspaceRewrittenSpecifier (ws : WorkspaceDependencySpecifier)
    (member : Manifest) (url : String) : PesdeDependencySpecifier :=
  { name := ws.name
    version :=
      match ws.version with
      | .versionType .wildcard => versionReqStar
      | .req r => r
      | .versionType vt => vt.display ++ member.version.display
    index := some url
    target := some (ws.target.getD member.target.kind) }

/-- The spec scenario's workspace specifier: `cli` depends on member `api`
with a caret constraint. -/
def cexWsSpec : WorkspaceDependencySpecifier :=
  { name := ⟨"x", "api"⟩, version := .versionType .caret, target := none }

/-- The `api` workspace member's manifest, at version 1.0.0. -/
def cexApiManifest : Manifest :=
  { name := ⟨"x", "api"⟩
    version := ⟨1, 0, 0⟩
    privateFlag := false
    target := .lune (some "init.luau") none
    indices := [(DEFAULT_INDEX_NAME, "https://example.com/index")]
    wally_indices := []
    dependencies := []
    dev_dependencies := []
    peer_dependencies := [] }

/-- The `cli` manifest depending on `api` through the workspace source. -/
def cexCliManifest : Manifest :=
  { name := ⟨"x", "cli"⟩
    version := ⟨0, 1, 0⟩
    privateFlag := false
    target := .lune (some "init.luau") none
    indices := [(DEFAULT_INDEX_NAME, "https://example.com/index")]
    wally_indices := []
    dependencies := [("api", .workspace cexWsSpec)]
    dev_dependencies := []
    peer_dependencies := [] }

/-- The expected rewrite of `cexCliManifest`: the workspace dependency has
become a registry specifier `^1.0.0` on the member's default index. -/
def cexCliRewritten : Manifest :=
  { cexCliManifest with
    dependencies := [("api", .pesde
      { name := ⟨"x", "api"⟩, version := "^1.0.0",
        index := some "https://example.com/index", target := some .lune })] }

/-! ## Publish: HTTP response mapping (publish.rs lines 514-537) -/

/-- The user-facing outcome of the publish HTTP response handling. -/
inductive PublishResponseOutcome where
  /-- 409: the package version already exists. -/
  | versionExists
  /-- 403: unauthorized to publish under this scope. -/
  | unauthorizedScope
  /-- 400: invalid package; carries the server's message text. -/
  | invalidPackage (text : String)
  /-- Other non-success: fatal error carrying the status code and body. -/
  | fatal (code : Nat) (text : String)
  /-- A success status: publish completes, printing the body. -/
  | success (text : String)
deriving DecidableEq, Repr

/-- Whether an HTTP status code is a success code (reqwest's
`StatusCode.is_success`: 200..=299). -/
def statusIsSuccess (code : Nat) : Bool :=
  200 ≤ code && code ≤ 299

/-- Embedding of the `match status` at the end of
`PublishCommand::run_impl`: 409, 403 and 400 print specific statuses, any
other non-success status aborts fatally with code and body, and everything
else (a success status) prints the body and completes. -/
def publishResponseOutcome (status : Nat) (text : String) : PublishResponseOutcome :=
  if status = 409 then .versionExists
  else if status = 403 then .unauthorizedScope
  else if status = 400 then .invalidPackage text
  else if !statusIsSuccess status then .fatal status text
  else .success text

/-! ## Publish: archive size check (publish.rs lines 472-478) -/

/-- The archive-size failure, carrying the limit and the computed overage as
printed in the error message `archive size exceeds maximum size of
(max) bytes by (overage) bytes`. -/
structure ArchiveSizeError where
  maxSize : Nat
  overage : Nat
deriving DecidableEq, Repr

/-- Embedding of the archive size check: fail iff the archive's byte length
strictly exceeds `max_archive_size` (a field modelled from the spec's index
configuration; this snapshot's `IndexConfig` struct omits it), reporting the
overage `archive.len() - max_archive_size`. -/
def checkArchiveSize (archiveLen maxArchiveSize : Nat) : Except ArchiveSizeError Unit :=
  if archiveLen > maxArchiveSize then
    .error ⟨maxArchiveSize, archiveLen - maxArchiveSize⟩
  else
    .ok ()

end Pesde

namespace Pesde

/-- C5: the publish HTTP outcome is a function of the status code alone:
409 reports the version exists, 403 an unauthorized scope, 400 an invalid
package carrying the server text, any other non-success code is fatal with
code and body, and any success code completes the publish. -/
theorem publish_response_code_mapping (status : Nat) (text : String) :
    (status = 409 → publishResponseOutcome status text = .versionExists) ∧
    (status = 403 → publishResponseOutcome status text = .unauthorizedScope) ∧
    (status = 400 → publishResponseOutcome status text = .invalidPackage text) ∧
    (status ≠ 409 → status ≠ 403 → status ≠ 400 → statusIsSuccess status = false →
      publishResponseOutcome status text = .fatal status text) ∧
    (statusIsSuccess status = true →
      publishResponseOutcome status text = .success text) := by
  refine ⟨?_, ?_, ?_, ?_, ?_⟩
  · intro h; simp [publishResponseOutcome, h]
  · intro h
    have h409 : status ≠ 409 := by omega
    simp [publishResponseOutcome, h, h409]
  · intro h
    have h409 : status ≠ 409 := by omega
    have h403 : status ≠ 403 := by omega
    simp [publishResponseOutcome, h, h409, h403]
  · intro h409 h403 h400 hs
    simp [publishResponseOutcome, h409, h403, h400, hs]
  · intro hs
    have h409 : status ≠ 409 := by
      intro h; rw [h] at hs; simp [statusIsSuccess] at hs
    have h403 : status ≠ 403 := by
      intro h; rw [h] at hs; simp [statusIsSuccess] at hs
    have h400 : status ≠ 400 := by
      intro h; rw [h] at hs; simp [statusIsSuccess] at hs
    simp [publishResponseOutcome, h409, h403, h400, hs]

/-- Witness for C5: evaluates the response mapping at status 409 (and checks
the hypothesis-guarded conjuncts at concrete codes). -/
theorem publish_response_code_mapping_witness :
    publishResponseOutcome 409 "body" = .versionExists ∧
    publishResponseOutcome 500 "body" = .fatal 500 "body" ∧
    publishResponseOutcome 200 "ok" = .success "ok" := by
  refine ⟨(publish_response_code_mapping 409 "body").1 rfl, ?_, ?_⟩
  · exact (publish_response_code_mapping 500 "body").2.2.2.1
      (by decide) (by decide) (by decide) (by decide)
  · exact (publish_response_code_mapping 200 "ok").2.2.2.2 (by decide)

/-- C6: publish's size check fails iff the archive is strictly larger than
`max_archive_size`; the failure reports exactly the difference, and an
archive exactly at the limit passes. -/
theorem archive_size_check (archiveLen maxArchiveSize : Nat) :
    ((∃ e, checkArchiveSize archiveLen maxArchiveSize = .error e) ↔
      archiveLen > maxArchiveSize) ∧
    (archiveLen > maxArchiveSize →
      checkArchiveSize archiveLen maxArchiveSize =
        .error ⟨maxArchiveSize, archiveLen - maxArchiveSize⟩) ∧
    (archiveLen = maxArchiveSize →
      checkArchiveSize archiveLen maxArchiveSize = .ok ()) := by
  refine ⟨⟨?_, ?_⟩, ?_, ?_⟩
  · rintro ⟨e, he⟩
    by_contra h
    simp [checkArchiveSize, h] at he
  · intro h
    exact ⟨⟨maxArchiveSize, archiveLen - maxArchiveSize⟩, by simp [checkArchiveSize, h]⟩
  · intro h
    simp [checkArchiveSize, h]
  · intro h
    simp [checkArchiveSize, h, Nat.lt_irrefl]

/-- Witness for C6: an archive one byte over a 10-byte limit fails with
overage 1; an archive exactly at the limit passes. -/
theorem archive_size_check_witness :
    checkArchiveSize 11 10 = .error ⟨10, 1⟩ ∧
    checkArchiveSize 10 10 = .ok () := by
  exact ⟨(archive_size_check 11 10).2.1 (by decide),
         (archive_size_check 10 10).2.2 rfl⟩

/-- C1 (counterexample): a lockfile containing a non-dev, transitively
reachable, non-Roblox (Lune) package on which publish nevertheless
succeeds past the Roblox gate — the code only inspects nodes carrying the
`direct` marker, not the transitive closure. -/
theorem roblox_transitive_check_counterexample :
    publishRunImplHead cexManifest (some cexLockfile) = .ok ⟨false, true⟩ ∧
    ReachableFromDirect cexLockfile cexPkgB cexVidB ∧
    cexLockfile.lookupNode cexPkgB cexVidB = some cexNodeB ∧
    cexNodeB.node.ty ≠ .dev ∧
    cexNodeB.target.build_files = none := by
  refine ⟨rfl, ?_, by decide, by decide, by decide⟩
  exact .step cexPkgA cexVidA cexNodeA cexPkgB cexVidB "b"
    (.direct cexPkgA cexVidA cexNodeA (by decide) (by decide))
    (by decide) (by simp [cexNodeA])

/-- C1 (amended): for a non-private manifest with an export and a Roblox
target, publish fails with `noBuildFiles` when build files are empty, with
`outdatedLockfile` when no up-to-date lockfile exists, and with the
roblox-dependency error exactly when some node of the lockfile graph that
carries the `direct` marker is non-dev and has a non-Roblox target —
indirect transitive dependencies are not inspected. -/
theorem publish_roblox_gate (m : Manifest) (lk : Option Lockfile)
    (hpriv : m.privateFlag = false)
    (hexp : (m.target.lib_path.isNone && m.target.bin_path.isNone) = false)
    (hrb : m.target.kind.isRoblox = true) :
    (buildFilesNonEmpty m.target = false →
      publishRunImplHead m lk = .error .noBuildFiles) ∧
    (buildFilesNonEmpty m.target = true → lk = none →
      publishRunImplHead m lk = .error .outdatedLockfile) ∧
    (∀ lf, buildFilesNonEmpty m.target = true → lk = some lf →
      (publishRunImplHead m lk = .error .robloxNonRoblox ↔
        ∃ p ∈ lf.allNodes, p.2.node.direct.isSome = true ∧
          p.2.target.build_files = none ∧ p.2.node.ty ≠ .dev)) := by
  refine ⟨?_, ?_, ?_⟩
  · intro hbf
    simp [publishRunImplHead, hpriv, hexp, hrb, hbf]
  · intro hbf hnone
    subst hnone
    simp [publishRunImplHead, hpriv, hexp, hrb, hbf]
  · intro lf hbf hsome
    subst hsome
    have hcheck : robloxDependencyCheckFails lf = true ↔
        ∃ p ∈ lf.allNodes, p.2.node.direct.isSome = true ∧
          p.2.target.build_files = none ∧ p.2.node.ty ≠ .dev := by
      simp [robloxDependencyCheckFails, List.any_eq_true, Option.isNone_iff_eq_none,
        and_assoc]
    have hval : publishRunImplHead m (some lf) =
        if robloxDependencyCheckFails lf then .error .robloxNonRoblox
        else .ok ⟨false, true⟩ := by
      simp [publishRunImplHead, hpriv, hexp, hrb, hbf]
    rw [hval, ← hcheck]
    by_cases hc : robloxDependencyCheckFails lf = true
    · simp [hc]
    · simp [hc]

/-- Witness for C1's amended theorem: on the counterexample manifest with a
lockfile whose only direct node is non-dev and non-Roblox, the gate fails
with the roblox-dependency error. -/
theorem publish_roblox_gate_witness :
    publishRunImplHead cexManifest (some cexDirectLuneLockfile) =
      .error .robloxNonRoblox := by
  have h := publish_roblox_gate cexManifest (some cexDirectLuneLockfile)
    (by decide) (by decide) (by decide)
  refine ((h.2.2 _ (by decide) rfl).mpr ?_)
  refine ⟨(cexVidA,
    { node := { direct := some ("a", .pesde ⟨⟨"x", "a"⟩, "*", none, none⟩)
                pkg_ref := .pesde
                  { name := ⟨"x", "a"⟩, version := ⟨1, 0, 0⟩
                    index_url := "https://example.com/index", dependencies := []
                    target := .lune (some "init.luau") none }
                ty := .standard, dependencies := [] }
      target := .lune (some "init.luau") none }), ?_, by decide, by decide, by decide⟩
  simp [Lockfile.allNodes, cexDirectLuneLockfile]

/-- Every workspace specifier in a successfully rewritten dependency map is
replaced by the registry specifier built from the resolved member: helper
for the rewrite claim, proved by induction along the map. -/
theorem rewriteDepList_workspace_mem
    (indices wallyIndices : List (String × String))
    (resolveMember : WorkspaceDependencySpecifier → Option Manifest) :
    ∀ (l l' : List (String × DependencySpecifiers)),
      rewriteDepList indices wallyIndices resolveMember l = .ok l' →
      ∀ al ws, (al, DependencySpecifiers.workspace ws) ∈ l →
        ∃ member url, resolveMember ws = some member ∧
          member.indices.lookup DEFAULT_INDEX_NAME = some url ∧
          (al, DependencySpecifiers.pesde
            (workspaceRewrittenSpecifier ws member url)) ∈ l' := by
  intro l
  induction l with
  | nil => intro l' h al ws hmem; cases hmem
  | cons p rest ih =>
    intro l' h al ws hmem
    obtain ⟨a, spec⟩ := p
    rw [rewriteDepList] at h
    cases h1 : rewriteSpecifier indices wallyIndices resolveMember spec with
    | error e => rw [h1] at h; cases h
    | ok spec' =>
      rw [h1] at h
      cases h2 : rewriteDepList indices wallyIndices resolveMember rest with
      | error e => rw [h2] at h; cases h
      | ok rest' =>
        rw [h2] at h
        cases h
        rcases List.mem_cons.mp hmem with heq | htail
        · obtain ⟨rfl, rfl⟩ := Prod.mk.injEq .. ▸ heq
          rw [rewriteSpecifier] at h1
          cases hrm : resolveMember ws with
          | none => rw [hrm] at h1; cases h1
          | some member =>
            rw [hrm] at h1
            cases hurl : member.indices.lookup DEFAULT_INDEX_NAME with
            | none =>
              rcases hv : ws.version with vt | r
              · cases vt <;> simp [hv, hurl, versionReqParse] at h1
              · simp [hv, hurl, versionReqParse] at h1
            | some url =>
              refine ⟨member, url, rfl, hurl, ?_⟩
              have hspec : spec' = .pesde (workspaceRewrittenSpecifier ws member url) := by
                rcases hv : ws.version with vt | r
                · cases vt <;>
                    simp_all [workspaceRewrittenSpecifier, versionReqParse,
                      VersionTypeOrReq.display, VersionType.display]
                · simp_all [workspaceRewrittenSpecifier, versionReqParse]
              rw [hspec] at *
              exact List.mem_cons_self _ _
        · obtain ⟨member, url, h3, h4, h5⟩ := ih rest' h2 al ws htail
          exact ⟨member, url, h3, h4, List.mem_cons_of_mem _ h5⟩

/-- C2: after a successful rewrite, every workspace specifier in any of the
three dependency maps has become a registry (pesde) specifier whose index
is the resolved member's default index URL, whose version requirement is
`*` for the wildcard type, the requirement itself for a full requirement,
and the comparator prefix concatenated with the member's version otherwise,
and whose target is the specifier's target or else the member's kind. -/
theorem workspace_specifier_rewrite (m : Manifest)
    (resolveMember : WorkspaceDependencySpecifier → Option Manifest) (m' : Manifest)
    (h : rewriteManifestDeps m resolveMember = .ok m') (al : String)
    (ws : WorkspaceDependencySpecifier) :
    ((al, DependencySpecifiers.workspace ws) ∈ m.dependencies →
      ∃ member url, resolveMember ws = some member ∧
        member.indices.lookup DEFAULT_INDEX_NAME = some url ∧
        (al, DependencySpecifiers.pesde
          (workspaceRewrittenSpecifier ws member url)) ∈ m'.dependencies) ∧
    ((al, DependencySpecifiers.workspace ws) ∈ m.dev_dependencies →
      ∃ member url, resolveMember ws = some member ∧
        member.indices.lookup DEFAULT_INDEX_NAME = some url ∧
        (al, DependencySpecifiers.pesde
          (workspaceRewrittenSpecifier ws member url)) ∈ m'.dev_dependencies) ∧
    ((al, DependencySpecifiers.workspace ws) ∈ m.peer_dependencies →
      ∃ member url, resolveMember ws = some member ∧
        member.indices.lookup DEFAULT_INDEX_NAME = some url ∧
        (al, DependencySpecifiers.pesde
          (workspaceRewrittenSpecifier ws member url)) ∈ m'.peer_dependencies) := by
  rw [rewriteManifestDeps] at h
  cases h1 : rewriteDepList m.indices m.wally_indices resolveMember m.dependencies with
  | error e => rw [h1] at h; cases h
  | ok deps =>
    rw [h1] at h
    cases h2 : rewriteDepList m.indices m.wally_indices resolveMember m.dev_dependencies with
    | error e => rw [h2] at h; cases h
    | ok devDeps =>
      rw [h2] at h
      cases h3 : rewriteDepList m.indices m.wally_indices resolveMember m.peer_dependencies with
      | error e => rw [h3] at h; cases h
      | ok peerDeps =>
        rw [h3] at h
        cases h
        exact ⟨fun hm => rewriteDepList_workspace_mem _ _ _ _ _ h1 al ws hm,
               fun hm => rewriteDepList_workspace_mem _ _ _ _ _ h2 al ws hm,
               fun hm => rewriteDepList_workspace_mem _ _ _ _ _ h3 al ws hm⟩

/-- Witness for C2: the spec's scenario — `cli` depends on workspace member
`api` at version `1.0.0` with a caret constraint; publishing rewrites it to
a registry specifier `^1.0.0` on the member's default index. -/
theorem workspace_specifier_rewrite_witness :
    ∃ member url,
      (fun _ : WorkspaceDependencySpecifier => some cexApiManifest) cexWsSpec = some member ∧
      member.indices.lookup DEFAULT_INDEX_NAME = some url ∧
      ("api", DependencySpecifiers.pesde
        (workspaceRewrittenSpecifier cexWsSpec member url)) ∈
        cexCliRewritten.dependencies := by
  refine (workspace_specifier_rewrite cexCliManifest
    (fun _ => some cexApiManifest) cexCliRewritten rfl "api" cexWsSpec).1 ?_
  simp [cexCliManifest, cexWsSpec]

/-- The refresh loop's accumulator invariant: the calls made extend the
accumulator by a duplicate-free list of sources absent from the starting
set, and when no refresh fails the new calls are exactly the sources of the
processed references that were not yet in the set. -/
theorem downloadGraphRefreshGo_calls (refreshOk : PackageSources → Bool) :
    ∀ (refs : List PackageRefs) (set calls : List PackageSources),
      ∃ new, (downloadGraphRefreshGo refreshOk refs set calls).2.1 = calls ++ new ∧
        new.Nodup ∧
        (∀ s ∈ new, s ∉ set) ∧
        ((∀ s, refreshOk s = true) →
          ∀ s, s ∈ new ↔ s ∈ refs.map sourceOfRef ∧ s ∉ set) := by
  intro refs
  induction refs with
  | nil =>
    intro set calls
    exact ⟨[], by simp [downloadGraphRefreshGo], by simp, by simp, by simp⟩
  | cons r rest ih =>
    intro set calls
    by_cases hmem : sourceOfRef r ∈ set
    · obtain ⟨new, h1, h2, h3, h4⟩ := ih set calls
      refine ⟨new, ?_, h2, h3, ?_⟩
      · simpa [downloadGraphRefreshGo, hmem] using h1
      · intro hall s
        constructor
        · intro hs
          exact ⟨List.mem_cons_of_mem _ (((h4 hall s).mp hs).1),
                 ((h4 hall s).mp hs).2⟩
        · rintro ⟨hs, hns⟩
          rcases List.mem_cons.mp hs with rfl | hs'
          · exact absurd hmem hns
          · exact (h4 hall s).mpr ⟨hs', hns⟩
    · by_cases hok : refreshOk (sourceOfRef r) = true
      · obtain ⟨new, h1, h2, h3, h4⟩ := ih (sourceOfRef r :: set) (calls ++ [sourceOfRef r])
        refine ⟨sourceOfRef r :: new, ?_, ?_, ?_, ?_⟩
        · rw [downloadGraphRefreshGo]
          simp only [hmem, if_false, hok, if_true]
          simpa using h1
        · exact List.nodup_cons.mpr
            ⟨fun hc => (h3 _ hc) (List.mem_cons_self _ _), h2⟩
        · intro s hs
          rcases List.mem_cons.mp hs with rfl | hs'
          · exact hmem
          · exact fun hset => (h3 s hs') (List.mem_cons_of_mem _ hset)
        · intro hall s
          constructor
          · intro hs
            rcases List.mem_cons.mp hs with rfl | hs'
            · exact ⟨by simp, hmem⟩
            · obtain ⟨hin, hnin⟩ := (h4 hall s).mp hs'
              exact ⟨by simp [hin], fun hset => hnin (List.mem_cons_of_mem _ hset)⟩
          · rintro ⟨hs, hns⟩
            rcases List.mem_cons.mp hs with heq | hs'
            · exact heq ▸ List.mem_cons_self _ _
            · by_cases hcur : s = sourceOfRef r
              · exact hcur ▸ List.mem_cons_self _ _
              · exact List.mem_cons_of_mem _
                  ((h4 hall s).mpr ⟨hs', by simp [List.mem_cons, hcur, hns]⟩)
      · refine ⟨[sourceOfRef r], ?_, by simp, by simp [hmem], ?_⟩
        · rw [downloadGraphRefreshGo]
          simp [hmem, hok]
        · intro hall
          exact absurd (hall (sourceOfRef r)) (by simp [hok])

/-- C7: in one `download_graph` run, refresh is never called twice for the
same source, sources already in the shared `refreshed_sources` set are
never refreshed, and when no refresh fails the refreshed sources are
exactly the graph's sources that were not yet in the set — i.e. refresh is
called exactly when the set insertion succeeds. -/
theorem download_graph_refresh_once (refreshOk : PackageSources → Bool)
    (graph : DependencyGraph) (refreshedSources : List PackageSources) :
    (downloadGraphRefresh refreshOk graph refreshedSources).2.1.Nodup ∧
    (∀ s ∈ (downloadGraphRefresh refreshOk graph refreshedSources).2.1,
      s ∉ refreshedSources) ∧
    ((∀ s, refreshOk s = true) → ∀ s,
      s ∈ (downloadGraphRefresh refreshOk graph refreshedSources).2.1 ↔
        s ∈ (graphRefs graph).map sourceOfRef ∧ s ∉ refreshedSources) := by
  obtain ⟨new, h1, h2, h3, h4⟩ :=
    downloadGraphRefreshGo_calls refreshOk (graphRefs graph) refreshedSources []
  rw [downloadGraphRefresh, h1, List.nil_append]
  exact ⟨h2, h3, h4⟩

/-- Witness for C7 (discharging the no-failure hypothesis): on a one-node
graph whose source is not yet refreshed, with all refreshes succeeding,
that source is refreshed (exactly once). -/
theorem download_graph_refresh_once_witness :
    PackageSources.pesde ⟨"https://example.com/index"⟩ ∈
      (downloadGraphRefresh (fun _ => true)
        [(cexPkgA, [(cexVidA, cexNodeA.node)])] []).2.1 := by
  refine ((download_graph_refresh_once (fun _ => true)
    [(cexPkgA, [(cexVidA, cexNodeA.node)])] []).2.2 (fun _ => rfl)
    (.pesde ⟨"https://example.com/index"⟩)).mpr ?_
  simp [graphRefs, cexNodeA, sourceOfRef]

/-- C3: a successful registry resolve returns the package's name and
exactly those index entries whose version satisfies the requirement and
whose target equals the specifier's target when one is given or else is
compatible with the consumer's target kind; each returned ref carries the
entry's dependencies and target and the source's index URL. -/
theorem pesde_resolve_exact (src : PesdePackageSource)
    (vmatches : String → SemVer → Bool) (specifier : PesdeDependencySpecifier)
    (projectTarget : TargetKind) (entries : IndexFile)
    (name : PackageNames) (result : List (VersionId × PesdePackageRef))
    (h : src.resolve vmatches specifier projectTarget (some entries) = .ok (name, result)) :
    name = .pesde specifier.name ∧
    ∀ id ref, ((id, ref) ∈ result ↔
      ∃ e, (id, e) ∈ entries ∧
        vmatches specifier.version id.version = true ∧
        (match specifier.target with
         | some t => t = id.target
         | none => projectTarget.is_compatible_with id.target = true) ∧
        ref = { name := specifier.name, version := id.version,
                index_url := src.repo_url, dependencies := e.dependencies,
                target := e.target }) := by
  rw [PesdePackageSource.resolve] at h
  injection h with h
  injection h with hname hres
  subst hname
  subst hres
  refine ⟨rfl, ?_⟩
  intro id ref
  constructor
  · intro hmem
    obtain ⟨⟨pid, pe⟩, hpf, heq⟩ := List.mem_map.mp hmem
    obtain ⟨hpe, hpq⟩ := List.mem_filter.mp hpf
    obtain ⟨rfl, rfl⟩ := Prod.mk.injEq .. ▸ heq
    refine ⟨pe, hpe, ?_, ?_, rfl⟩
    · exact (Bool.and_eq_true ..).mp hpq |>.1
    · have h2 := (Bool.and_eq_true ..).mp hpq |>.2
      cases hst : specifier.target with
      | none => rw [hst] at h2; exact h2
      | some t => rw [hst] at h2; exact beq_iff_eq.mp h2
  · rintro ⟨e, he, hm, ht, rfl⟩
    refine List.mem_map.mpr ⟨(id, e), List.mem_filter.mpr ⟨he, ?_⟩, rfl⟩
    refine (Bool.and_eq_true ..).mpr ⟨hm, ?_⟩
    cases hst : specifier.target with
    | none => rw [hst] at ht; exact ht
    | some t => rw [hst] at ht; exact beq_iff_eq.mpr ht

/-- Witness for C3: resolving a two-entry index with a requirement matching
only version 1.3.1 and no specifier target, from a Lune consumer, keeps
exactly the 1.3.1 Lune entry with the source's URL and the entry's target
and dependencies. -/
theorem pesde_resolve_exact_witness :
    (PesdePackageSource.mk "https://example.com/index").resolve
        (fun _ v => v.minor == 3) ⟨⟨"scope", "util"⟩, "^1.3.0", none, none⟩
        .lune (some cexIndexFile) =
      .ok (.pesde ⟨"scope", "util"⟩,
        [(⟨⟨1, 3, 1⟩, .lune⟩,
          { name := ⟨"scope", "util"⟩, version := ⟨1, 3, 1⟩
            index_url := "https://example.com/index", dependencies := []
            target := .lune (some "init.luau") none })]) ∧
    ((⟨⟨1, 3, 1⟩, .lune⟩, ⟨⟨"scope", "util"⟩, ⟨1, 3, 1⟩,
        "https://example.com/index", [], .lune (some "init.luau") none⟩) ∈
      [(VersionId.mk ⟨1, 3, 1⟩ .lune,
        PesdePackageRef.mk ⟨"scope", "util"⟩ ⟨1, 3, 1⟩
          "https://example.com/index" [] (.lune (some "init.luau") none))] ↔
      ∃ e, (VersionId.mk ⟨1, 3, 1⟩ .lune, e) ∈ cexIndexFile ∧
        (fun (_ : String) (v : SemVer) => v.minor == 3) "^1.3.0" ⟨1, 3, 1⟩ = true ∧
        TargetKind.lune.is_compatible_with TargetKind.lune = true ∧
        PesdePackageRef.mk ⟨"scope", "util"⟩ ⟨1, 3, 1⟩
            "https://example.com/index" [] (.lune (some "init.luau") none) =
          { name := ⟨"scope", "util"⟩, version := ⟨1, 3, 1⟩,
            index_url := "https://example.com/index",
            dependencies := e.dependencies, target := e.target }) := by
  constructor
  · rfl
  · exact (pesde_resolve_exact _ (fun _ v => v.minor == 3)
      ⟨⟨"scope", "util"⟩, "^1.3.0", none, none⟩ .lune cexIndexFile _ _ rfl).2
      ⟨⟨1, 3, 1⟩, .lune⟩ _

/-- C4: download is cached by `(escaped name, version, target)`: a cache
file that exists and parses is returned as-is with the ref's target and no
network use; on a cache miss, a successful download writes the cache file,
so a second download of the same ref (under any fetch behaviour, network
included or not) returns the same `PackageFS` without network work. -/
theorem download_cache_roundtrip (r : PesdePackageRef) (st : DownloadState)
    (fetch : Except Unit (List TarEntry)) :
    (∀ fs, st.cache.lookup (cacheKey r) = some (.parseable fs) →
      PesdePackageSource.download r st fetch = .ok (fs, r.target, st, false)) ∧
    (st.cache.lookup (cacheKey r) = none →
      ∀ fs tgt st' used,
        PesdePackageSource.download r st fetch = .ok (fs, tgt, st', used) →
        st'.cache.lookup (cacheKey r) = some (.parseable fs) ∧
        ∀ fetch2, PesdePackageSource.download r st' fetch2 =
          .ok (fs, r.target, st', false)) := by
  constructor
  · intro fs h
    simp [PesdePackageSource.download, h]
  · intro hnone fs tgt st' used h
    rw [PesdePackageSource.download.eq_def, hnone] at h
    cases fetch with
    | error e => cases h
    | ok entries =>
      cases hu : unpackEntries entries [] st.cas with
      | error e => simp only [hu] at h; cases h
      | ok res =>
        simp only [hu] at h
        injection h with h
        obtain ⟨h1, h2⟩ := Prod.mk.injEq .. ▸ h
        obtain ⟨h3, h4⟩ := Prod.mk.injEq .. ▸ h2
        obtain ⟨h5, h6⟩ := Prod.mk.injEq .. ▸ h4
        subst h1; subst h5
        constructor
        · simp [List.lookup]
        · intro fetch2
          simp [PesdePackageSource.download, List.lookup]

/-- Witness for C4: downloading a one-file archive into the empty state
misses the cache, writes the cache file, and a second download returns the
same tree with no network use (the fetch is not even consulted: an erroring
fetch succeeds). -/
theorem download_cache_roundtrip_witness :
    cexDownloadState.cache.lookup (cacheKey cexDownloadRef) = none ∧
    cexDownloadStateAfter.cache.lookup (cacheKey cexDownloadRef) =
      some (.parseable cexDownloadFS) ∧
    PesdePackageSource.download cexDownloadRef cexDownloadStateAfter (.error ()) =
      .ok (cexDownloadFS, cexDownloadRef.target, cexDownloadStateAfter, false) := by
  have h := (download_cache_roundtrip cexDownloadRef cexDownloadState
    (.ok cexTarEntries)).2 rfl cexDownloadFS cexDownloadRef.target
    cexDownloadStateAfter true rfl
  exact ⟨rfl, h.1, h.2 (.error ())⟩

/-- An archive containing a non-directory entry with invalid UTF-8 contents
always fails to unpack with the unpack (I/O) error, whatever the
accumulated tree and CAS: helper for the UTF-8 claim. -/
theorem unpackEntries_invalid :
    ∀ (entries : List TarEntry) (acc : List (String × FSEntry))
      (cas : List (Nat × List Nat)),
      (∃ e ∈ entries, e.isDir = false ∧ validUtf8 e.contents = false) →
      unpackEntries entries acc cas = .error .unpack := by
  intro entries
  induction entries with
  | nil =>
    rintro acc cas ⟨e, he, _⟩
    cases he
  | cons a rest ih =>
    rintro acc cas ⟨e, he, hdir, hval⟩
    rcases List.mem_cons.mp he with rfl | htail
    · rw [unpackEntries]
      simp [hdir, hval]
    · rw [unpackEntries]
      by_cases hd : a.isDir = true
      · simp only [hd, if_true]
        exact ih _ _ ⟨e, htail, hdir, hval⟩
      · by_cases hv : validUtf8 a.contents = true
        · simp only [hd, if_false, hv, if_true]
          exact ih _ _ ⟨e, htail, hdir, hval⟩
        · simp [hd, hv]

/-- C10: registry download stores only UTF-8 file contents — on a cache
miss, a fetched archive containing any non-UTF-8 regular file makes
download fail with the unpack (I/O) error instead of producing a
`PackageFS`. -/
theorem download_utf8_failure (r : PesdePackageRef) (st : DownloadState)
    (entries : List TarEntry)
    (hmiss : st.cache.lookup (cacheKey r) = none)
    (e : TarEntry) (he : e ∈ entries) (hdir : e.isDir = false)
    (hval : validUtf8 e.contents = false) :
    PesdePackageSource.download r st (.ok entries) = .error .unpack := by
  have hu := unpackEntries_invalid entries [] st.cas ⟨e, he, hdir, hval⟩
  simp [PesdePackageSource.download, hmiss, hu]

/-- Witness for C10: a fresh download of an archive holding a single file
whose contents are the invalid byte 0xFF fails with the unpack error. -/
theorem download_utf8_failure_witness :
    PesdePackageSource.download cexDownloadRef cexDownloadState
      (.ok [⟨"bin.dat", false, [255]⟩]) = .error .unpack :=
  download_utf8_failure cexDownloadRef cexDownloadState
    [⟨"bin.dat", false, [255]⟩] rfl ⟨"bin.dat", false, [255]⟩
    (List.mem_singleton.mpr rfl) rfl rfl

/-- C8: the compat source's synthesized target carries as library entry the
first `.lua`/`.luau` path among the sourcemap generator's reported file
paths, or the no-file-found sentinel when no script is configured (and,
via `find?` returning `none`, when no such path exists); the kind is
Roblox for a shared realm and RobloxServer otherwise, with empty build
files. -/
theorem wally_compat_target (scripts : List (String × String))
    (execResult : Option String) (parseSourcemap : String → Option SourcemapNode)
    (realm : Realm) :
    (scripts.lookup SCRIPT_SOURCEMAP_GENERATOR = none →
      get_target scripts execResult parseSourcemap realm =
        .ok (match realm with
             | .shared => Target.roblox (some LINK_LIB_NO_FILE_FOUND) []
             | .server => Target.robloxServer (some LINK_LIB_NO_FILE_FOUND) [])) ∧
    (∀ s out node, scripts.lookup SCRIPT_SOURCEMAP_GENERATOR = some s →
      execResult = some out → out.isEmpty = false → parseSourcemap out = some node →
      get_target scripts execResult parseSourcemap realm =
        .ok (match realm with
             | .shared => Target.roblox
                 (some ((node.file_paths.find? hasLuaExt).getD LINK_LIB_NO_FILE_FOUND)) []
             | .server => Target.robloxServer
                 (some ((node.file_paths.find? hasLuaExt).getD LINK_LIB_NO_FILE_FOUND)) [])) := by
  constructor
  · intro hnone
    cases realm <;> simp [get_target, find_lib_path, hnone]
  · intro s out node hs hout hne hparse
    subst hout
    cases realm <;>
      simp [get_target, find_lib_path, hs, hne, hparse]

/-- Witness for C8: with a configured script reporting `README.md` then two
Luau paths, the shared realm yields a Roblox target whose library entry is
the first `.luau` path, with empty build files. -/
theorem wally_compat_target_witness :
    get_target [(SCRIPT_SOURCEMAP_GENERATOR, "scripts/sourcemap.luau")]
      (some "out")
      (fun _ => some ⟨["README.md", "src/init.luau", "src/other.luau"]⟩)
      .shared =
      .ok (Target.roblox (some "src/init.luau") []) := by
  have h := (wally_compat_target
    [(SCRIPT_SOURCEMAP_GENERATOR, "scripts/sourcemap.luau")] (some "out")
    (fun _ => some ⟨["README.md", "src/init.luau", "src/other.luau"]⟩)
    .shared).2 "scripts/sourcemap.luau" "out"
    ⟨["README.md", "src/init.luau", "src/other.luau"]⟩ rfl rfl rfl rfl
  have hfind : List.find? hasLuaExt ["README.md", "src/init.luau", "src/other.luau"] =
      some "src/init.luau" := by decide
  rw [h, hfind]
  rfl

/-- C9: a private manifest makes the publish command return success right
after the notice: the early phase stops before the exports check, before
any archive construction and before any network traffic. -/
theorem private_publish_short_circuit (m : Manifest) (lk : Option Lockfile)
    (h : m.privateFlag = true) :
    publishRunImplHead m lk = .ok ⟨true, false⟩ := by
  simp [publishRunImplHead, h]

/-- Witness for C9: the private variant of the fixture manifest publishes
as a no-op success. -/
theorem private_publish_short_circuit_witness :
    publishRunImplHead { cexManifest with privateFlag := true } none = .ok ⟨true, false⟩ :=
  private_publish_short_circuit { cexManifest with privateFlag := true } none rfl

end Pesde
